import Mathlib

/-!
Verification of the layer reconciliation core of a declarative GPU scene-graph
framework (deck.gl fork).  The definitions below are a shallow embedding of:

* `LayerManager` (layer-manager.js): `setLayers`, `getLayers`,
  `_updateLayers`, `_updateSublayersRecursively`, `_finalizeOldLayers`,
  `_initializeLayer`, `_transferLayerState`, `_updateLayer`, `_finalizeLayer`.
* `LayerObject` (lifecycle-object.js): `_initialize`, `_update`,
  `_transferState`, `diffProps`, `_loadData`, `setChangeFlags`,
  `clearChangeFlags`, `setNeedsRedraw`, `_getNeedsRedraw`.
* `LayerState` (layer-state.js): `setAsyncProp`, `_loadAsyncProp` and the
  load-count supersession mechanism.
* `Layer` (layer.js): `encodePickingColor`, `decodePickingColor`, and the
  `_getNeedsRedraw` override.

JS object mutation is modelled by explicit state passing.  `InternalState`
records live in an explicit heap (association list keyed by a state id), so
that sharing / transfer of a record between two layer objects is represented
by the two objects holding the same key, exactly as two JS references point
to one object.  Exceptions are modelled by `Option Err` results: `some e`
means the JS code threw `e` at that point (with all mutations performed up to
the throw retained, as in JS).  Subclass lifecycle hooks
(`initializeState`, `updateState`, `finalizeState`, `getSubLayers`) are
application-supplied code, so they are parameters of each layer: a `Hooks`
record says whether each hook throws.  The external `diffProps` helper
(props.js, an excluded collaborator) is a parameter `diffFn` of the walk.
-/

namespace DeckVerify

abbrev Err := String

/-- `LIFECYCLE` constants. -/
inductive Lifecycle where
  | noState
  | initialized
  | matched
  | awaitingGC
  | awaitingFinalization
  | finalized
deriving DecidableEq, Repr

/-- The four primary change-flag fields of the object passed to
`setChangeFlags` (each may be absent/false). -/
structure PrimFlags where
  dataChanged : Bool
  propsChanged : Bool
  updateTriggersChanged : Bool
  viewportChanged : Bool
deriving DecidableEq, Repr

/-- `internalState.changeFlags`: four primary flags plus the two derived
composite flags maintained by `setChangeFlags`. -/
structure ChangeFlags where
  dataChanged : Bool
  propsChanged : Bool
  updateTriggersChanged : Bool
  viewportChanged : Bool
  propsOrDataChanged : Bool
  somethingChanged : Bool
deriving DecidableEq, Repr

/-- The record written by `clearChangeFlags` (all fields `false`). -/
def clearedChangeFlags : ChangeFlags :=
  { dataChanged := false, propsChanged := false, updateTriggersChanged := false
    viewportChanged := false, propsOrDataChanged := false, somethingChanged := false }

/-- `LayerObject.setChangeFlags(flags)`: each primary flag is only written when
it is newly raised (sticky OR), and the two composite flags accumulate. -/
def setChangeFlags (cf : ChangeFlags) (f : PrimFlags) : ChangeFlags :=
  let dataChanged := if f.dataChanged && !cf.dataChanged then f.dataChanged else cf.dataChanged
  let updateTriggersChanged :=
    if f.updateTriggersChanged && !cf.updateTriggersChanged then f.updateTriggersChanged
    else cf.updateTriggersChanged
  let propsChanged := if f.propsChanged && !cf.propsChanged then f.propsChanged else cf.propsChanged
  let viewportChanged :=
    if f.viewportChanged && !cf.viewportChanged then f.viewportChanged else cf.viewportChanged
  let propsOrDataChanged := f.dataChanged || f.updateTriggersChanged || f.propsChanged
  { dataChanged := dataChanged
    propsChanged := propsChanged
    updateTriggersChanged := updateTriggersChanged
    viewportChanged := viewportChanged
    propsOrDataChanged := cf.propsOrDataChanged || propsOrDataChanged
    somethingChanged := cf.somethingChanged || (propsOrDataChanged || f.viewportChanged) }

/-- The `data` prop: a string (URL reference), inline data (array/object,
abstracted to a `Nat` payload), or null/undefined. -/
inductive DataVal where
  | url (u : String)
  | inline (v : Nat)
  | null
deriving DecidableEq, Repr

/-- A layer's resolved prop bag: the `id`, the `data` prop (relevant to
`_loadData`), and an abstract payload standing for all remaining props. -/
structure Props where
  id : String
  data : DataVal
  payload : Nat
deriving DecidableEq, Repr

/-- `oldProps` of a freshly constructed layer is the frozen `EMPTY_PROPS`. -/
def emptyProps : Props := { id := "", data := DataVal.null, payload := 0 }

/-- One `InternalState` (`LayerState`) record.  `dataSlot` is
`internalState.data` (`none` = JS null, `some v` = an array, `0` = empty
array); `loadPromise` records whether an auto-load promise is outstanding;
`layerRef` is the `internalState.layer` back pointer (by object id). -/
structure InternalState where
  changeFlags : ChangeFlags
  needsRedraw : Bool
  lastUrl : Option String
  dataSlot : Option Nat
  loadPromise : Bool
  layerRef : Option Nat
deriving DecidableEq, Repr

/-- The record allocated by `new LayerState({})` inside
`LayerObject._initialize` (`needsRedraw` starts `true`; `changeFlags` starts
absent, which behaves as all-false under `setChangeFlags`).  Note: the
repository snapshot holds two generations of `LayerState` — the
layer-state.js constructor asserts a truthy `attributeManager`, which
`_initialize`'s `new LayerState({})` call (from the older generation that
uses `internalState.lastUrl`/`loadPromise`) would not satisfy; taken
literally together no layer could ever initialize, so the embedding follows
the evidently intended behavior that allocation succeeds, matching the
generation `_initialize` belongs to. -/
def initialInternalState : InternalState :=
  { changeFlags := clearedChangeFlags, needsRedraw := true, lastUrl := none
    dataSlot := none, loadPromise := false, layerRef := none }

/-- The heap of `InternalState` records, keyed by state id.  Two layer
objects holding the same key share one record (JS reference semantics). -/
abbrev Heap := List (Nat × InternalState)

def heapGet (h : Heap) (sid : Nat) : Option InternalState :=
  (h.find? (fun p => p.1 == sid)).map (fun p => p.2)

def heapSet (h : Heap) (sid : Nat) (s : InternalState) : Heap :=
  h.map (fun p => if p.1 == sid then (sid, s) else p)

/-- Mutate the change flags of the record at `sid` through `setChangeFlags`. -/
def setFlagsH (h : Heap) (sid : Nat) (f : PrimFlags) : Heap :=
  match heapGet h sid with
  | none => h
  | some is => heapSet h sid { is with changeFlags := setChangeFlags is.changeFlags f }

/-- Mutate the record at `sid` through `clearChangeFlags`. -/
def clearFlagsH (h : Heap) (sid : Nat) : Heap :=
  match heapGet h sid with
  | none => h
  | some is => heapSet h sid { is with changeFlags := clearedChangeFlags }

/-- Behaviour of the application-supplied subclass lifecycle hooks of one
layer: `some e` means the hook throws `e` when invoked. -/
structure Hooks where
  initThrows : Option Err
  updateThrows : Option Err
  finalizeThrows : Option Err
  isComposite : Bool
  getSubLayersThrows : Option Err
deriving DecidableEq, Repr

/-- Hooks that all succeed, for a primitive (non-composite) layer. -/
def okHooks : Hooks :=
  { initThrows := none, updateThrows := none, finalizeThrows := none
    isComposite := false, getSubLayersThrows := none }

/-- The mutable scalar fields of one layer object.  `oid` is the JS object
identity (`this`), used for `===` comparisons; `internalState` is a heap key
or `none` (JS null); `hasState` says whether `this.state` is non-null.
`flagsAtUpdate` is observational instrumentation: the `changeFlags` snapshot
captured in the `updateParams` handed to the update pass. -/
structure LayerCore where
  oid : Nat
  props : Props
  oldProps : Props
  lifecycle : Lifecycle
  internalState : Option Nat
  hasState : Bool
  hooks : Hooks
  flagsAtUpdate : Option ChangeFlags
deriving DecidableEq, Repr

/-- A freshly constructed layer object (`new Layer(props)`): `NO_STATE`,
null state slots, `oldProps = EMPTY_PROPS`. -/
def freshLayer (oid : Nat) (props : Props) (hooks : Hooks) : LayerCore :=
  { oid := oid, props := props, oldProps := emptyProps, lifecycle := Lifecycle.noState
    internalState := none, hasState := false, hooks := hooks, flagsAtUpdate := none }

/-- A layer object together with the sublayer descriptors its
`getSubLayers()` hook would return (relevant when `isComposite`). -/
inductive Layer where
  | mk (core : LayerCore) (subs : List Layer)

def Layer.core : Layer → LayerCore
  | .mk c _ => c

def Layer.subs : Layer → List Layer
  | .mk _ s => s

/-- Observable events of one reconciliation pass (log warnings and lifecycle
method invocations), in order of occurrence. -/
inductive Event where
  | warnDupOld (id : String)
  | warnDupNew (id : String)
  | initLayer (oid : Nat)
  | initError (oid : Nat) (e : Err)
  | matchedLayer (oldOid newOid : Nat)
  | matchedSame (oid : Nat)
  | updateLayer (oid : Nat)
  | updateError (oid : Nat) (e : Err)
  | walkError (oid : Nat) (e : Err)
  | finalizeLayer (oid : Nat)
  | finalizeError (oid : Nat) (e : Err)
deriving DecidableEq, Repr

/-- `LayerObject._loadData()`.  For a string-valued `data` prop whose URL
differs from `internalState.lastUrl`, records the URL, ensures
`internalState.data` is an array, stores an outstanding load promise and
returns `true`; otherwise returns `false` (non-string data nulls
`internalState.data`).  The promise's completion handler runs
asynchronously, never during the reconciliation pass. -/
def loadData (h : Heap) (sid : Nat) (data : DataVal) : Heap × Bool :=
  match heapGet h sid with
  | none => (h, false)
  | some is =>
    match data with
    | DataVal.url u =>
      if is.lastUrl = some u then (h, false)
      else
        (heapSet h sid
          { is with dataSlot := some (is.dataSlot.getD 0), lastUrl := some u
                    loadPromise := true }, true)
    | _ => (heapSet h sid { is with dataSlot := none }, false)

/-- `LayerObject._initialize()`.  Asserts null state slots, allocates a fresh
`InternalState` and `state`, runs the `initializeState` hook, raises
data/props/viewport change flags, runs `_loadData`, runs the update pass
(`_updateState` with the current flags; `_renderLayers` of composite layers
is collaborator code with no effect on this model), then clears the flags.
Returns the mutated layer, heap and next state id, plus the error thrown (if
any) with all mutations made before the throw retained. -/
def layerInitialize (c : LayerCore) (h : Heap) (nextSid : Nat) :
    (LayerCore × Heap × Nat) × Option Err :=
  if c.internalState.isSome || c.hasState then
    ((c, h, nextSid), some "AssertionError: _initialize on initialized layer")
  else
    let sid := nextSid
    let h := h ++ [(sid, initialInternalState)]
    let c := { c with internalState := some sid, hasState := true }
    match c.hooks.initThrows with
    | some e => ((c, h, nextSid + 1), some e)
    | none =>
      let h := setFlagsH h sid
        { dataChanged := true, propsChanged := true
          updateTriggersChanged := false, viewportChanged := true }
      let h := (loadData h sid c.props.data).1
      let c := { c with flagsAtUpdate := (heapGet h sid).map InternalState.changeFlags }
      match c.hooks.updateThrows with
      | some e => ((c, h, nextSid + 1), some e)
      | none =>
        let h := clearFlagsH h sid
        ((c, h, nextSid + 1), none)

/-- `LayerObject._update()`.  Computes `stateNeedsUpdate` via the default
`shouldUpdateState` (`changeFlags.propsOrDataChanged`), builds the update
params (snapshotting the current flags), runs `updateState` when needed, and
clears the flags — unless `updateState` throws, in which case the flags are
left as they were (the `clearChangeFlags` at the end is not reached). -/
def layerUpdate (c : LayerCore) (h : Heap) : (LayerCore × Heap) × Option Err :=
  match c.internalState with
  | none => ((c, h), some "TypeError: internalState is null")
  | some sid =>
    let cf := ((heapGet h sid).map (fun is => is.changeFlags)).getD clearedChangeFlags
    let stateNeedsUpdate := cf.propsOrDataChanged
    let c := { c with flagsAtUpdate := some cf }
    if stateNeedsUpdate then
      match c.hooks.updateThrows with
      | some e => ((c, h), some e)
      | none => ((c, clearFlagsH h sid), none)
    else
      ((c, clearFlagsH h sid), none)

/-- `LayerObject.diffProps()` (the in-repo wrapper around the external
`diffProps` helper of props.js, here the parameter `diffFn`): computes the
diff flags, fires `_activeUpdateTrigger` per changed trigger (attribute
invalidation — collaborator code, no effect here), postpones `dataChanged`
when `_loadData` starts an async load, then feeds the flags through
`setChangeFlags`. -/
def layerDiffProps (diffFn : Props → Props → PrimFlags) (c : LayerCore)
    (sid : Nat) (h : Heap) : Heap :=
  let d := diffFn c.props c.oldProps
  let hd : Heap × PrimFlags :=
    if d.dataChanged then
      let r := loadData h sid c.props.data
      if r.2 then (r.1, { d with dataChanged := false }) else (r.1, d)
    else (h, d)
  setFlagsH hd.1 sid hd.2

/-- `LayerObject._transferState(oldLayer)`.  Asserts the old layer has
`state` and `internalState`; adopts (shares) the old layer's state slots —
the source deliberately does NOT null the old layer's refs ("We keep the
state ref on old layers to support async actions") — keeps the old props as
`oldProps`, and runs `diffProps`. -/
def layerTransferState (diffFn : Props → Props → PrimFlags)
    (c oc : LayerCore) (h : Heap) : (LayerCore × Heap) × Option Err :=
  match oc.internalState with
  | none => ((c, h), some "AssertionError: _transferState without state")
  | some sid =>
    if !oc.hasState then ((c, h), some "AssertionError: _transferState without state")
    else
      let c := { c with hasState := true, internalState := some sid, oldProps := oc.props }
      let h := layerDiffProps diffFn c sid h
      ((c, h), none)

/-- `LayerObject.setNeedsRedraw(redraw = true)`: writes
`internalState.needsRedraw` when `internalState` is non-null, otherwise does
nothing. -/
def setNeedsRedrawL (c : LayerCore) (h : Heap) (redraw : Bool) : Heap :=
  match c.internalState with
  | none => h
  | some sid =>
    match heapGet h sid with
    | none => h
    | some is => heapSet h sid { is with needsRedraw := redraw }

/-- `LayerObject._getNeedsRedraw(clearRedrawFlags)`: guards against a null
`internalState` (returns `false`, here `none`); otherwise returns the layer
id when the redraw flag is set (JS `needsRedraw && this.id`) and
conditionally clears the flag. -/
def getNeedsRedrawBase (c : LayerCore) (h : Heap) (clearRedrawFlags : Bool) :
    Option String × Heap :=
  match c.internalState with
  | none => (none, h)
  | some sid =>
    match heapGet h sid with
    | none => (none, h)
    | some is =>
      let ret := if is.needsRedraw then some c.props.id else none
      (ret, heapSet h sid { is with needsRedraw := is.needsRedraw && !clearRedrawFlags })

/-- `Layer.getModels()` (layer.js): `this.state && (this.state.models ||
(this.state.model ? [this.state.model] : []))` — null when `state` is null,
otherwise a (here empty: no GPU models are modelled) list. -/
def getModelsL (c : LayerCore) : Option (List Nat) :=
  if c.hasState then some [] else none

/-- `Layer._getNeedsRedraw(clearRedrawFlags)` (the layer.js override): calls
the base implementation, consults the attribute manager
(`this.internalState && this.internalState.attributeManager`, absent in this
model), then iterates `this.getModels()` — which throws a TypeError when
`getModels()` returns null (i.e. when `this.state` is null). -/
def getNeedsRedrawSub (c : LayerCore) (h : Heap) (clearRedrawFlags : Bool) :
    Except Err (Option String × Heap) :=
  let rh := getNeedsRedrawBase c h clearRedrawFlags
  match getModelsL c with
  | none => Except.error "TypeError: getModels result is not iterable"
  | some _models => Except.ok rh

/-- Result of a manager wrapper call: the mutated layer/heap state, the error
that ESCAPED the wrapper (propagating to the caller), the error the wrapper
CAUGHT and returned as a value, and the emitted events. -/
structure InitResult where
  core : LayerCore
  heap : Heap
  nextSid : Nat
  escaped : Option Err
  captured : Option Err
  events : List Event
deriving Repr

/-- `LayerManager._initializeLayer(layer)`: wraps `layer._initialize()` in
try/catch (advancing the lifecycle to `INITIALIZED` only on success, logging
and capturing the error otherwise), then sets the
`layer.internalState.layer` back pointer (a TypeError escapes here if
`internalState` is still null) and tags the (here absent) models.  The
captured error is RETURNED; its callers ignore the return value. -/
def initializeLayerM (c : LayerCore) (h : Heap) (nextSid : Nat) : InitResult :=
  let r := layerInitialize c h nextSid
  let c1 := r.1.1
  let h1 := r.1.2.1
  let ns1 := r.1.2.2
  let step : LayerCore × List Event :=
    match r.2 with
    | none => ({ c1 with lifecycle := Lifecycle.initialized }, [Event.initLayer c1.oid])
    | some e => (c1, [Event.initLayer c1.oid, Event.initError c1.oid e])
  let c2 := step.1
  match c2.internalState with
  | none =>
    { core := c2, heap := h1, nextSid := ns1
      escaped := some "TypeError: internalState is null", captured := r.2, events := step.2 }
  | some sid =>
    let h2 :=
      match heapGet h1 sid with
      | none => h1
      | some is => heapSet h1 sid { is with layerRef := some c2.oid }
    { core := c2, heap := h2, nextSid := ns1, escaped := none, captured := r.2, events := step.2 }

/-- Result of `_transferLayerState` / `_updateLayer` style wrappers. -/
structure TransferResult where
  oldCore : LayerCore
  core : LayerCore
  heap : Heap
  escaped : Option Err
  events : List Event
deriving Repr

/-- `LayerManager._transferLayerState(oldLayer, newLayer)`: for distinct
objects, marks the new layer `MATCHED` and the old one `AWAITING_GC` and
runs `newLayer._transferState(oldLayer)` (whose assertion error escapes);
when the matched object IS the old object, just re-marks it `MATCHED` and
refreshes `oldProps`. -/
def transferLayerStateM (diffFn : Props → Props → PrimFlags)
    (oc c : LayerCore) (h : Heap) : TransferResult :=
  if c.oid ≠ oc.oid then
    let c1 := { c with lifecycle := Lifecycle.matched }
    let oc1 := { oc with lifecycle := Lifecycle.awaitingGC }
    let r := layerTransferState diffFn c1 oc1 h
    { oldCore := oc1, core := r.1.1, heap := r.1.2, escaped := r.2
      events := [Event.matchedLayer oc.oid c.oid] }
  else
    let c1 := { c with lifecycle := Lifecycle.matched, oldProps := c.props }
    { oldCore := c1, core := c1, heap := h, escaped := none
      events := [Event.matchedSame c.oid] }

/-- Result of `_updateLayer`. -/
structure UpdateLayerResult where
  core : LayerCore
  heap : Heap
  escaped : Option Err
  captured : Option Err
  events : List Event
deriving Repr

/-- `LayerManager._updateLayer(layer)`: logs using `printChangeFlags()`
(which dereferences `internalState` OUTSIDE the try, so a null
`internalState` escapes as a TypeError), then wraps `layer._update()` in
try/catch.  The caught error is RETURNED; the walk ignores the return
value. -/
def updateLayerM (c : LayerCore) (h : Heap) : UpdateLayerResult :=
  match c.internalState with
  | none =>
    { core := c, heap := h, escaped := some "TypeError: internalState is null"
      captured := none, events := [] }
  | some _ =>
    let r := layerUpdate c h
    match r.2 with
    | none =>
      { core := r.1.1, heap := r.1.2, escaped := none, captured := none
        events := [Event.updateLayer c.oid] }
    | some e =>
      { core := r.1.1, heap := r.1.2, escaped := none, captured := some e
        events := [Event.updateLayer c.oid, Event.updateError c.oid e] }

/-- Result of `_finalizeLayer`. -/
structure FinalizeResult where
  core : LayerCore
  mgrRedraw : Option String
  escaped : Option Err
  captured : Option Err
  events : List Event
deriving Repr

/-- `LayerManager._finalizeLayer(layer)`: asserts the layer is not already
`AWAITING_FINALIZATION` (this assertion error ESCAPES — it is outside the
try, and does NOT fire for a `FINALIZED` layer), transitions to
`AWAITING_FINALIZATION`, raises the manager redraw reason, runs
`layer._finalize()` in try/catch (capturing hook errors and the
`_finalize` assertion on null state slots), and transitions to `FINALIZED`
unconditionally.  The captured error is returned to `_finalizeOldLayers`,
which accumulates the first one. -/
def finalizeLayerM (c : LayerCore) (mgrRedraw : Option String) : FinalizeResult :=
  if c.lifecycle = Lifecycle.awaitingFinalization then
    { core := c, mgrRedraw := mgrRedraw
      escaped := some "AssertionError: finalize while AWAITING_FINALIZATION"
      captured := none, events := [] }
  else
    let c1 := { c with lifecycle := Lifecycle.awaitingFinalization }
    let mgrRedraw1 :=
      match mgrRedraw with
      | some r => some r
      | none => some ("finalized " ++ c1.props.id)
    let captured : Option Err :=
      if c1.internalState.isSome && c1.hasState then c1.hooks.finalizeThrows
      else some "AssertionError: _finalize without state"
    let c2 := { c1 with lifecycle := Lifecycle.finalized }
    let evs :=
      match captured with
      | none => [Event.finalizeLayer c2.oid]
      | some e => [Event.finalizeLayer c2.oid, Event.finalizeError c2.oid e]
    { core := c2, mgrRedraw := mgrRedraw1, escaped := none, captured := captured, events := evs }

/-- The old-layer candidate map (`oldLayerMap`): a JS object in insertion
order.  A key mapped to `none` is the JS `null` marker meaning "this id was
originally there and has been matched"; an absent key is JS `undefined`. -/
abbrev OldMap := List (String × Option LayerCore)

def mapLookup (m : OldMap) (id : String) : Option (Option LayerCore) :=
  (m.find? (fun p => p.1 == id)).map (fun p => p.2)

/-- `oldLayerMap[id] = null` (adds the key when absent, as JS does). -/
def mapSetNull (m : OldMap) (id : String) : OldMap :=
  if (m.find? (fun p => p.1 == id)).isSome then
    m.map (fun p => if p.1 == id then (id, none) else p)
  else m ++ [(id, none)]

/-- First-error accumulation (`error = error || err`). -/
def firstErr (a b : Option Err) : Option Err :=
  match a with
  | some e => some e
  | none => b

/-- The old-layer-map construction loop of `_updateLayers`: first layer with
an id wins, later layers with the same id only log a warning. -/
def buildOldLayerMap (oldLayers : List LayerCore) : OldMap × List Event :=
  oldLayers.foldl
    (fun acc ol =>
      match mapLookup acc.1 ol.props.id with
      | some _ => (acc.1, acc.2 ++ [Event.warnDupOld ol.props.id])
      | none => (acc.1 ++ [(ol.props.id, some ol)], acc.2))
    ([], [])

/-- The mutable state threaded through `_updateSublayersRecursively`:
the heap, the candidate map, the `generatedLayers` output array, the first
recorded error, plus instrumentation (`oldOut` collects the mutated matched
predecessors; `trace` the emitted events). -/
structure WalkSt where
  heap : Heap
  nextSid : Nat
  oldLayerMap : OldMap
  generated : List LayerCore
  oldOut : List LayerCore
  firstError : Option Err
  trace : List Event
deriving Repr

mutual

/-- One iteration of the loop body of
`LayerManager._updateSublayersRecursively` on layer `l`: look up the same-id
predecessor (warning if the map already holds the `null` marker), null out
the map entry, then inside try/catch either initialize (no predecessor) or
transfer-and-update (predecessor found), push the layer onto
`generatedLayers`, obtain composite sublayers, and recurse into them with
the same map and output array.  An exception caught anywhere in the block
is recorded as first error without aborting the loop.  Note that the
source DISCARDS the recursive call's return value (each invocation has its
own local `error`), so errors recorded inside a sub-walk never reach the
parent's first error: the sub-walk runs with a fresh error slot and the
parent's is restored afterwards. -/
def walkLayer (diffFn : Props → Props → PrimFlags) (st : WalkSt) : Layer → WalkSt
  | .mk c subs =>
    let oldLayer := mapLookup st.oldLayerMap c.props.id
    let dupEvents : List Event :=
      match oldLayer with
      | some none => [Event.warnDupNew c.props.id]
      | _ => []
    let st := { st with oldLayerMap := mapSetNull st.oldLayerMap c.props.id
                        trace := st.trace ++ dupEvents }
    match oldLayer with
    | some (some oc) =>
      let tr := transferLayerStateM diffFn oc c st.heap
      let st := { st with heap := tr.heap, oldOut := st.oldOut ++ [tr.oldCore]
                          trace := st.trace ++ tr.events }
      match tr.escaped with
      | some e =>
        { st with firstError := firstErr st.firstError (some e)
                  trace := st.trace ++ [Event.walkError c.oid e] }
      | none =>
        let ur := updateLayerM tr.core st.heap
        let st := { st with heap := ur.heap, trace := st.trace ++ ur.events }
        match ur.escaped with
        | some e =>
          { st with firstError := firstErr st.firstError (some e)
                    trace := st.trace ++ [Event.walkError c.oid e] }
        | none =>
          let st := { st with generated := st.generated ++ [ur.core] }
          if ur.core.hooks.isComposite then
            match ur.core.hooks.getSubLayersThrows with
            | some e =>
              { st with firstError := firstErr st.firstError (some e)
                        trace := st.trace ++ [Event.walkError c.oid e] }
            | none =>
              let sub := walkLayers diffFn { st with firstError := none } subs
              { sub with firstError := st.firstError }
          else st
    | _ =>
      let ir := initializeLayerM c st.heap st.nextSid
      let st := { st with heap := ir.heap, nextSid := ir.nextSid
                          trace := st.trace ++ ir.events }
      match ir.escaped with
      | some e =>
        { st with firstError := firstErr st.firstError (some e)
                  trace := st.trace ++ [Event.walkError c.oid e] }
      | none =>
        let st := { st with generated := st.generated ++ [ir.core] }
        if ir.core.hooks.isComposite then
          match ir.core.hooks.getSubLayersThrows with
          | some e =>
            { st with firstError := firstErr st.firstError (some e)
                      trace := st.trace ++ [Event.walkError c.oid e] }
          | none =>
            let sub := walkLayers diffFn { st with firstError := none } subs
            { sub with firstError := st.firstError }
        else st

/-- The loop of `_updateSublayersRecursively` over a descriptor list. -/
def walkLayers (diffFn : Props → Props → PrimFlags) (st : WalkSt) : List Layer → WalkSt
  | [] => st
  | l :: rest => walkLayers diffFn (walkLayer diffFn st l) rest

end

/-- Result of `_finalizeOldLayers`. -/
structure FinalizeOldResult where
  finalized : List LayerCore
  mgrRedraw : Option String
  captured : Option Err
  escaped : Option Err
  events : List Event
deriving Repr

/-- The loop of `_finalizeOldLayers`, with `err` the loop's `error`
accumulator.  `error = error || this._finalizeLayer(layer)` SHORT-CIRCUITS:
once `error` is truthy, `_finalizeLayer` is not called any more, so every
surviving candidate after the first captured finalization error is skipped
un-finalized.  An assertion error escaping `_finalizeLayer` aborts the loop
(there is no try/catch here). -/
def finalizeOldLoop (entries : OldMap) (mgrRedraw : Option String) (err : Option Err) :
    FinalizeOldResult :=
  match entries with
  | [] =>
    { finalized := [], mgrRedraw := mgrRedraw, captured := err, escaped := none, events := [] }
  | (_, none) :: rest => finalizeOldLoop rest mgrRedraw err
  | (_, some c) :: rest =>
    match err with
    | some e => finalizeOldLoop rest mgrRedraw (some e)
    | none =>
      let fr := finalizeLayerM c mgrRedraw
      match fr.escaped with
      | some e =>
        { finalized := [], mgrRedraw := fr.mgrRedraw, captured := none
          escaped := some e, events := fr.events }
      | none =>
        let r := finalizeOldLoop rest fr.mgrRedraw fr.captured
        { finalized := fr.core :: r.finalized, mgrRedraw := r.mgrRedraw
          captured := r.captured, escaped := r.escaped
          events := fr.events ++ r.events }

/-- `LayerManager._finalizeOldLayers(oldLayerMap)`: iterates the map in key
order with `let error = null`, finalizing remaining non-null candidates
until the first captured error short-circuits the rest (see
`finalizeOldLoop`). -/
def finalizeOldLayers (entries : OldMap) (mgrRedraw : Option String) : FinalizeOldResult :=
  finalizeOldLoop entries mgrRedraw none

/-- Result of `_updateLayers`. -/
structure UpdateLayersResult where
  generated : List LayerCore
  oldOut : List LayerCore
  finalized : List LayerCore
  firstError : Option Err
  escaped : Option Err
  heap : Heap
  nextSid : Nat
  mgrRedraw : Option String
  trace : List Event
deriving Repr

/-- `LayerManager._updateLayers({oldLayers, newLayers})`: builds the
candidate map (warning on duplicate old ids), walks the new layers
recursively, finalizes the unmatched candidates, and combines the first
walk error with the first finalization error (walk error wins). -/
def updateLayersM (diffFn : Props → Props → PrimFlags) (h : Heap) (ns : Nat)
    (mgrRedraw : Option String) (oldLayers : List LayerCore) (newLayers : List Layer) :
    UpdateLayersResult :=
  let bm := buildOldLayerMap oldLayers
  let st0 : WalkSt :=
    { heap := h, nextSid := ns, oldLayerMap := bm.1, generated := []
      oldOut := [], firstError := none, trace := bm.2 }
  let st := walkLayers diffFn st0 newLayers
  let fr := finalizeOldLayers st.oldLayerMap mgrRedraw
  { generated := st.generated, oldOut := st.oldOut, finalized := fr.finalized
    firstError := firstErr st.firstError fr.captured, escaped := fr.escaped
    heap := st.heap, nextSid := st.nextSid, mgrRedraw := fr.mgrRedraw
    trace := st.trace ++ fr.events }

/-- The `LayerManager` state.  `lastRenderedLayersTok` stands for the object
identity of the layer array passed to the previous `setLayers` call (JS
compares with `===`); `viewportSet` models `context.viewport` being
non-null; `needsRedrawReason` is `this._needsRedraw` (a reason string or
`false`). -/
structure Manager where
  lastRenderedLayersTok : Nat
  prevLayers : List LayerCore
  layers : List LayerCore
  viewportSet : Bool
  needsRedrawReason : Option String
  heap : Heap
  nextSid : Nat
deriving DecidableEq, Repr

/-- A freshly constructed manager (`_needsRedraw = 'Initial render'`,
empty layer lists; token 0 stands for the initial `lastRenderedLayers`
array). -/
def initialManager (viewportSet : Bool) : Manager :=
  { lastRenderedLayersTok := 0, prevLayers := [], layers := []
    viewportSet := viewportSet, needsRedrawReason := some "Initial render"
    heap := [], nextSid := 0 }

/-- `LayerManager.setLayers(newLayers)`: asserts a viewport is set; returns
immediately when the incoming array is reference-identical to the previous
call's argument; otherwise flattens (inputs here are modelled flat), stamps
context, runs `_updateLayers`, publishes `generatedLayers` as the live list
and re-raises the first recorded error, if any (an assertion escaping
`_finalizeOldLayers` propagates before the live list is published).
Returns the new manager state, the thrown error (if any) and the event
trace. -/
def setLayersT (diffFn : Props → Props → PrimFlags) (mgr : Manager) (tok : Nat)
    (newLayers : List Layer) : Manager × Option Err × List Event :=
  if !mgr.viewportSet then
    (mgr, some "AssertionError: LayerManager.updateLayers: viewport not set", [])
  else if tok = mgr.lastRenderedLayersTok then
    (mgr, none, [])
  else
    let mgr := { mgr with lastRenderedLayersTok := tok }
    let mgr := { mgr with prevLayers := mgr.layers }
    let r := updateLayersM diffFn mgr.heap mgr.nextSid mgr.needsRedrawReason
      mgr.prevLayers newLayers
    match r.escaped with
    | some e =>
      ({ mgr with heap := r.heap, nextSid := r.nextSid, needsRedrawReason := r.mgrRedraw },
       some e, r.trace)
    | none =>
      ({ mgr with layers := r.generated, heap := r.heap, nextSid := r.nextSid
                  needsRedrawReason := r.mgrRedraw },
       r.firstError, r.trace)

/-- JS `s.indexOf(pat) === 0`: `pat` is a prefix of `s` (compared on the
character sequences). -/
def indexOfZero (s pat : String) : Bool := pat.data.isPrefixOf s.data

/-- `LayerManager.getLayers({layerIds})`: the live list, or the layers whose
id starts with one of the filter strings (`layer.id.indexOf(layerId) === 0`
with JS truthiness of the found string: an empty first match is falsy). -/
def getLayers (mgr : Manager) (layerIds : Option (List String)) : List LayerCore :=
  match layerIds with
  | none => mgr.layers
  | some ids =>
    mgr.layers.filter (fun l =>
      match ids.find? (fun fid => indexOfZero l.props.id fid) with
      | some fid => !(fid == "")
      | none => false)

/-- The spec's words for the `getLayers` filter, for comparison with the
code: layers "whose id equals one of the filter strings or begins with a
filter string followed by a separator" (sub-layer ids are formed by adding a
`"-"`-suffix to the parent id). -/
def specGetLayers (mgr : Manager) (layerIds : Option (List String)) : List LayerCore :=
  match layerIds with
  | none => mgr.layers
  | some ids =>
    mgr.layers.filter (fun l =>
      ids.any (fun fid => l.props.id == fid || indexOfZero l.props.id (fid ++ "-")))

/-! ### Async property loader (`LayerState`, layer-state.js)

`setAsyncProp` intercepts string-valued props; `_loadAsyncProp` starts a
fetch whose completion handler closes over the incremented `loadCount` and
installs its result only when that captured count is still current.  Loaded
data values are abstracted to `Nat`. -/

/-- One `asyncValues[propName]` entry.  `value = none` stands for the
initial frozen `EMPTY_ARRAY`. -/
structure AsyncProp where
  lastValue : Option String
  loadValue : Option Nat
  loadPromiseActive : Bool
  loadCount : Nat
  value : Option Nat
deriving DecidableEq, Repr

/-- The default entry created by `_getAsyncProp`. -/
def initialAsyncProp : AsyncProp :=
  { lastValue := none, loadValue := none, loadPromiseActive := false
    loadCount := 0, value := none }

/-- An async property together with its in-flight fetches: each pending load
carries the `count` captured by its completion closure and its URL.
`dataChangedRaised` records whether a completion has called
`this.layer.setChangeFlags({dataChanged: true})` on the owning instance. -/
structure AsyncState where
  prop : AsyncProp
  pending : List (Nat × String)
  dataChangedRaised : Bool
deriving DecidableEq, Repr

/-- `LayerState.setAsyncProp` for a string value, followed by
`_loadAsyncProp`: no action when the reference is unchanged; otherwise
record `lastValue`, increment `loadCount`, and start a fetch whose closure
captures the incremented count.  (`_loadAsyncProp`'s
`asyncProp.data = asyncProp.data || []` guard only shields `props.data`
from returning a string and plays no part in the supersession state, so it
is not modelled.) -/
def setAsyncPropStr (s : AsyncState) (u : String) : AsyncState :=
  if s.prop.lastValue = some u then s
  else
    let count := s.prop.loadCount + 1
    { s with
      prop := { s.prop with lastValue := some u, loadCount := count
                            loadPromiseActive := true }
      pending := s.pending ++ [(count, u)] }

/-- The completion handler installed by `_loadAsyncProp`, firing for the
pending load whose closure captured `count`, with transformed data `data`:
`if (count === asyncProp.loadCount)` install `loadValue`/`value`, drop the
promise and raise `dataChanged` on the owning layer; otherwise the stale
result is silently discarded. -/
def resolveLoad (s : AsyncState) (count : Nat) (data : Nat) : AsyncState :=
  let s := { s with pending := s.pending.filter (fun p => p.1 ≠ count) }
  if count = s.prop.loadCount then
    { s with
      prop := { s.prop with loadValue := some data, loadPromiseActive := false
                            value := some data }
      dataChangedRaised := true }
  else s

/-! ### Picking colors (`Layer`, layer.js)

JS bitwise operators coerce their operands with `ToInt32` (wrap modulo
`2^32` into `[-2^31, 2^31)`); `>>` is an arithmetic shift and `&` operates
on the 32-bit two's-complement representation. -/

/-- JS `ToInt32`. -/
def toInt32 (n : Nat) : Int :=
  if n % 4294967296 < 2147483648 then ((n % 4294967296 : Nat) : Int)
  else ((n % 4294967296 : Nat) : Int) - 4294967296

/-- The unsigned 32-bit representation of an int32 value. -/
def int32ToUint32 (x : Int) : Nat := (x % 4294967296).toNat

/-- JS `>>` on an int32 value: arithmetic (floor) shift. -/
def jsShr (x : Int) (k : Nat) : Int := Int.fdiv x (2 ^ k)

/-- JS `&` on int32 values. -/
def jsAnd (x y : Int) : Int := toInt32 (int32ToUint32 x &&& int32ToUint32 y)

/-- `Layer.encodePickingColor(i)`: asserts `(((i + 1) >> 24) & 255) === 0`
("index out of picking color range", modelled as `none`), then returns
`[(i+1) & 255, ((i+1) >> 8) & 255, (((i+1) >> 8) >> 8) & 255]`. -/
def encodePickingColor (i : Nat) : Option (Nat × Nat × Nat) :=
  if jsAnd (jsShr (toInt32 (i + 1)) 24) 255 = 0 then
    some ((jsAnd (toInt32 (i + 1)) 255).toNat
      , (jsAnd (jsShr (toInt32 (i + 1)) 8) 255).toNat
      , (jsAnd (jsShr (jsShr (toInt32 (i + 1)) 8) 8) 255).toNat)
  else none

/-- `Layer.decodePickingColor(color)` on the three bytes of a `Uint8Array`:
`i1 + i2 * 256 + i3 * 65536 - 1` (1 was added to separate from no
selection). -/
def decodePickingColor (i1 i2 i3 : Nat) : Int :=
  (i1 : Int) + (i2 : Int) * 256 + (i3 : Int) * 65536 - 1

/-! ### Concrete fixtures used by the theorems -/

/-- A concrete external prop differ: `data` compared by equality, all other
props summarised by the payload. -/
def diffByPayload : Props → Props → PrimFlags := fun p q =>
  { dataChanged := decide (p.data ≠ q.data), propsChanged := decide (p.payload ≠ q.payload)
    updateTriggersChanged := false, viewportChanged := false }

/-- Shorthand for a simple non-composite descriptor layer. -/
def simpleLayer (oid : Nat) (id : String) (payload : Nat) (hooks : Hooks) : Layer :=
  Layer.mk (freshLayer oid { id := id, data := DataVal.inline 0, payload := payload } hooks) []

/-! ### Theorems -/

/-- **C4.** Idempotent re-submission: a `setLayers` call whose descriptor
list is reference-identical (same token) to the immediately preceding call's
argument short-circuits before any matching work: the manager — its live
layer list, every lifecycle state and all change flags (which live in
`mgr.heap`) — is returned unchanged and nothing is thrown. -/
theorem c4_idempotent_resubmission (diffFn : Props → Props → PrimFlags)
    (mgr : Manager) (tok : Nat) (ls : List Layer)
    (hv : mgr.viewportSet = true) (ht : tok = mgr.lastRenderedLayersTok) :
    setLayersT diffFn mgr tok ls = (mgr, none, []) := by
  simp [setLayersT, hv, ht]

/-- Witness for C4 at a concrete manager state. -/
theorem c4_idempotent_resubmission_witness :
    setLayersT diffByPayload (initialManager true) 0 [simpleLayer 5 "a" 0 okHooks] =
      (initialManager true, none, []) :=
  c4_idempotent_resubmission diffByPayload (initialManager true) 0
    [simpleLayer 5 "a" 0 okHooks] rfl rfl

/-- **C5, counterexample.** The claim says that after `_transferState` the
old instance "is a stale shell whose state slot is invalid" (the
`InternalState` is moved, not copied).  At a concrete matched pair the old
layer's `internalState` slot still holds the very same record reference
(`some 7`) after the transfer — the source deliberately keeps it ("We keep
the state ref on old layers to support async actions") — so old and new
both reference the record and the slot is not invalidated. -/
theorem c5_state_not_moved_counterexample :
    ((transferLayerStateM diffByPayload
        { oid := 1, props := { id := "a", data := DataVal.inline 0, payload := 0 }
          oldProps := emptyProps, lifecycle := Lifecycle.initialized
          internalState := some 7, hasState := true, hooks := okHooks, flagsAtUpdate := none }
        (freshLayer 2 { id := "a", data := DataVal.inline 0, payload := 1 } okHooks)
        [(7, initialInternalState)]).oldCore.internalState = some 7) ∧
    ((transferLayerStateM diffByPayload
        { oid := 1, props := { id := "a", data := DataVal.inline 0, payload := 0 }
          oldProps := emptyProps, lifecycle := Lifecycle.initialized
          internalState := some 7, hasState := true, hooks := okHooks, flagsAtUpdate := none }
        (freshLayer 2 { id := "a", data := DataVal.inline 0, payload := 1 } okHooks)
        [(7, initialInternalState)]).core.internalState = some 7) := by
  constructor
  · rfl
  · rfl

/-- **C5, amended.** When an old instance is matched to a new descriptor and
`_transferState` runs, the `InternalState` reference is transferred to the
new instance as a shared reference (the same record, not a copy): the new
instance now references it and is the only live (`MATCHED`) owner, while the
old instance — demoted to `AWAITING_GC`, hence no longer live — deliberately
retains its reference to the same record to support in-flight async
actions.  The old props are kept on the new instance for diffing and no
error escapes. -/
theorem c5_internalstate_shared_on_match (diffFn : Props → Props → PrimFlags)
    (oc c : LayerCore) (h : Heap) (sid : Nat)
    (hs : oc.internalState = some sid) (hst : oc.hasState = true)
    (hne : c.oid ≠ oc.oid) :
    ((transferLayerStateM diffFn oc c h).core.internalState = some sid ∧
     (transferLayerStateM diffFn oc c h).core.lifecycle = Lifecycle.matched ∧
     (transferLayerStateM diffFn oc c h).core.oldProps = oc.props) ∧
    ((transferLayerStateM diffFn oc c h).oldCore.internalState = some sid ∧
     (transferLayerStateM diffFn oc c h).oldCore.lifecycle = Lifecycle.awaitingGC) ∧
    (transferLayerStateM diffFn oc c h).escaped = none := by
  simp [transferLayerStateM, layerTransferState, hne, hs, hst]

/-- Witness for C5 (amended) at the concrete matched pair. -/
theorem c5_internalstate_shared_on_match_witness :
    ((transferLayerStateM diffByPayload
        { oid := 1, props := { id := "a", data := DataVal.inline 0, payload := 0 }
          oldProps := emptyProps, lifecycle := Lifecycle.initialized
          internalState := some 7, hasState := true, hooks := okHooks, flagsAtUpdate := none }
        (freshLayer 2 { id := "a", data := DataVal.inline 0, payload := 1 } okHooks)
        [(7, initialInternalState)]).core.internalState = some 7) ∧
    ((transferLayerStateM diffByPayload
        { oid := 1, props := { id := "a", data := DataVal.inline 0, payload := 0 }
          oldProps := emptyProps, lifecycle := Lifecycle.initialized
          internalState := some 7, hasState := true, hooks := okHooks, flagsAtUpdate := none }
        (freshLayer 2 { id := "a", data := DataVal.inline 0, payload := 1 } okHooks)
        [(7, initialInternalState)]).oldCore.lifecycle = Lifecycle.awaitingGC) :=
  ⟨(c5_internalstate_shared_on_match diffByPayload _ _ _ 7 rfl rfl (by decide)).1.1,
   (c5_internalstate_shared_on_match diffByPayload _ _ _ 7 rfl rfl (by decide)).2.1.2⟩

/-- **C6, counterexample.** The claim says invoking finalization on an
instance that is already finalizing *or finalized* is an assertion failure.
The assertion in `_finalizeLayer` only checks `AWAITING_FINALIZATION`: at a
concrete already-`FINALIZED` layer the call does not fail — it runs the
whole finalization again (leaving and re-entering `FINALIZED`, calling
`finalizeState` a second time), refuting both "no transition leaves
FINALIZED" and "re-finalizing is an assertion failure" for this input. -/
theorem c6_refinalize_finalized_counterexample :
    ((finalizeLayerM
        { oid := 3, props := { id := "z", data := DataVal.inline 0, payload := 0 }
          oldProps := emptyProps, lifecycle := Lifecycle.finalized
          internalState := some 0, hasState := true, hooks := okHooks, flagsAtUpdate := none }
        none).escaped = none) ∧
    ((finalizeLayerM
        { oid := 3, props := { id := "z", data := DataVal.inline 0, payload := 0 }
          oldProps := emptyProps, lifecycle := Lifecycle.finalized
          internalState := some 0, hasState := true, hooks := okHooks, flagsAtUpdate := none }
        none).events = [Event.finalizeLayer 3]) := by
  constructor
  · rfl
  · rfl

/-- Once the sweep's `error` accumulator is truthy, the
`error = error || _finalizeLayer(layer)` short-circuit skips every
remaining candidate: nothing more is finalized and no further event is
emitted. -/
theorem finalizeOldLoop_short (entries : OldMap) (r : Option String) (e : Err) :
    finalizeOldLoop entries r (some e) =
      { finalized := [], mgrRedraw := r, captured := some e, escaped := none
        events := [] } := by
  induction entries with
  | nil => rfl
  | cons p rest ih =>
    match p with
    | (k, none) =>
      simp only [finalizeOldLoop]
      exact ih
    | (k, some c) =>
      simp only [finalizeOldLoop]
      exact ih

/-- A sweep in which no candidate's finalization captures an error
finalizes each surviving candidate exactly once, in map order. -/
theorem finalizeOldLayers_clean (entries : OldMap) (r : Option String)
    (hs : ∀ x ∈ entries.filterMap (fun p => p.2),
      x.lifecycle ≠ Lifecycle.awaitingFinalization ∧ x.internalState.isSome = true ∧
      x.hasState = true ∧ x.hooks.finalizeThrows = none) :
    (finalizeOldLayers entries r).finalized =
      (entries.filterMap (fun p => p.2)).map
        (fun x => { x with lifecycle := Lifecycle.finalized }) := by
  unfold finalizeOldLayers
  induction entries generalizing r with
  | nil => simp [finalizeOldLoop]
  | cons p rest ih =>
    match p with
    | (k, none) =>
      simp only [List.filterMap_cons] at hs ⊢
      simp only [finalizeOldLoop]
      exact ih r hs
    | (k, some x) =>
      simp only [List.filterMap_cons] at hs ⊢
      obtain ⟨hx1, hx2, hx3, hx4⟩ := hs x (by simp)
      have hrest : ∀ y ∈ rest.filterMap (fun p => p.2),
          y.lifecycle ≠ Lifecycle.awaitingFinalization ∧ y.internalState.isSome = true ∧
          y.hasState = true ∧ y.hooks.finalizeThrows = none := by
        intro y hy
        exact hs y (by simp [hy])
      simp only [finalizeOldLoop, finalizeLayerM, if_neg hx1]
      simp only [hx2, hx3, hx4, Bool.and_self, if_pos, List.map_cons]
      simp [ih _ hrest]

/-- **C6, amended.** Finalization guard and sweep as implemented:
(1) invoking `_finalizeLayer` on an instance that is currently
`AWAITING_FINALIZATION` is an assertion failure; (2) on any other instance
(including an already-`FINALIZED` one, which is NOT guarded) the call
completes and leaves the instance `FINALIZED`; (3) a sweep in which no
finalization captures an error finalizes each surviving unmatched
candidate exactly once, in map order; (4) once an error is captured, the
`error = error || _finalizeLayer(layer)` short-circuit skips every
remaining survivor un-finalized; (5) in particular, a surviving candidate
whose `finalizeState` throws is itself finalized once with its error
captured, and every survivor after it is skipped.  So no instance is
finalized twice within a pass, but neither is every survivor finalized
once an error has been captured. -/
theorem c6_finalize_guard_amended (c : LayerCore) (r : Option String)
    (entries : OldMap)
    (hc : c.lifecycle = Lifecycle.awaitingFinalization)
    (hs : ∀ x ∈ entries.filterMap (fun p => p.2),
      x.lifecycle ≠ Lifecycle.awaitingFinalization ∧ x.internalState.isSome = true ∧
      x.hasState = true ∧ x.hooks.finalizeThrows = none) :
    ((finalizeLayerM c r).escaped =
        some "AssertionError: finalize while AWAITING_FINALIZATION") ∧
    (∀ c' : LayerCore, c'.lifecycle ≠ Lifecycle.awaitingFinalization →
      (finalizeLayerM c' r).escaped = none ∧
      (finalizeLayerM c' r).core.lifecycle = Lifecycle.finalized) ∧
    ((finalizeOldLayers entries r).finalized =
      (entries.filterMap (fun p => p.2)).map
        (fun x => { x with lifecycle := Lifecycle.finalized })) ∧
    (∀ (entries' : OldMap) (r' : Option String) (e : Err),
      finalizeOldLoop entries' r' (some e) =
        { finalized := [], mgrRedraw := r', captured := some e, escaped := none
          events := [] }) ∧
    (∀ (k : String) (c' : LayerCore) (rest : OldMap) (r' : Option String) (e : Err),
      c'.lifecycle ≠ Lifecycle.awaitingFinalization → c'.internalState.isSome = true →
      c'.hasState = true → c'.hooks.finalizeThrows = some e →
      (finalizeOldLayers ((k, some c') :: rest) r').finalized =
        [{ c' with lifecycle := Lifecycle.finalized }] ∧
      (finalizeOldLayers ((k, some c') :: rest) r').captured = some e) := by
  refine ⟨by simp [finalizeLayerM, hc], ?_, finalizeOldLayers_clean entries r hs, ?_, ?_⟩
  · intro c' hc'
    constructor
    · simp [finalizeLayerM, hc']
    · simp [finalizeLayerM, hc']
  · intro entries' r' e
    exact finalizeOldLoop_short entries' r' e
  · intro k c' rest r' e h1 h2 h3 h4
    constructor
    · simp [finalizeOldLayers, finalizeOldLoop, finalizeLayerM, h1, h2, h3, h4,
        finalizeOldLoop_short]
    · simp [finalizeOldLayers, finalizeOldLoop, finalizeLayerM, h1, h2, h3, h4,
        finalizeOldLoop_short]

/-- A concrete layer stuck in `AWAITING_FINALIZATION`. -/
def c6Awaiting : LayerCore :=
  { oid := 4, props := { id := "w", data := DataVal.inline 0, payload := 0 }
    oldProps := emptyProps, lifecycle := Lifecycle.awaitingFinalization
    internalState := some 0, hasState := true, hooks := okHooks, flagsAtUpdate := none }

/-- A concrete surviving unmatched candidate. -/
def c6Survivor : LayerCore :=
  { oid := 5, props := { id := "w", data := DataVal.inline 0, payload := 0 }
    oldProps := emptyProps, lifecycle := Lifecycle.initialized
    internalState := some 0, hasState := true, hooks := okHooks, flagsAtUpdate := none }

/-- A concrete surviving candidate whose `finalizeState` hook throws. -/
def c6Thrower : LayerCore :=
  { oid := 6, props := { id := "t", data := DataVal.inline 0, payload := 0 }
    oldProps := emptyProps, lifecycle := Lifecycle.initialized
    internalState := some 0, hasState := true
    hooks := { okHooks with finalizeThrows := some "finalize hook failure" }
    flagsAtUpdate := none }

/-- Witness for C6 (amended) at concrete inputs: one layer awaiting
finalization (assertion fires), a clean sweep over one surviving candidate,
and a sweep whose first candidate's finalization throws — the second
survivor is skipped un-finalized. -/
theorem c6_finalize_guard_amended_witness :
    ((finalizeLayerM c6Awaiting none).escaped =
      some "AssertionError: finalize while AWAITING_FINALIZATION") ∧
    ((finalizeOldLayers [("w", some c6Survivor)] none).finalized =
      [{ c6Survivor with lifecycle := Lifecycle.finalized }]) ∧
    ((finalizeOldLayers [("t", some c6Thrower), ("w", some c6Survivor)] none).finalized =
      [{ c6Thrower with lifecycle := Lifecycle.finalized }]) :=
  ⟨(c6_finalize_guard_amended c6Awaiting none [] rfl (by simp)).1,
   (c6_finalize_guard_amended c6Awaiting none [("w", some c6Survivor)]
      rfl (by decide)).2.2.1,
   ((c6_finalize_guard_amended c6Awaiting none [] rfl (by simp)).2.2.2.2
      "t" c6Thrower [("w", some c6Survivor)] none "finalize hook failure"
      (by decide) rfl rfl rfl).1⟩

/-- **C10, counterexample.** The claim says that for every instance whose
`internalState` is null, `getNeedsRedraw` does not throw.  That holds for
the guarded base implementation in `LayerObject`, but the repository's
`Layer` subclass overrides `_getNeedsRedraw` and unconditionally iterates
`this.getModels()`, which is null for a constructed-but-uninitialized layer
(`this.state` is null) — so the public `getNeedsRedraw` dispatches to an
override that throws a TypeError at this concrete freshly-constructed
layer. -/
theorem c10_subclass_getneedsredraw_throws :
    getNeedsRedrawSub (freshLayer 0 { id := "p", data := DataVal.inline 0, payload := 0 } okHooks)
        [] true =
      Except.error "TypeError: getModels result is not iterable" ∧
    getNeedsRedrawSub (freshLayer 0 { id := "p", data := DataVal.inline 0, payload := 0 } okHooks)
        [] false =
      Except.error "TypeError: getModels result is not iterable" := by
  constructor
  · rfl
  · rfl

/-- **C10, amended.** Pre-initialization redraw queries are safe through the
base `LayerObject` implementation: for every instance whose `internalState`
is null, `LayerObject._getNeedsRedraw` returns false (`none`) with or
without `clearRedrawFlags` and leaves the heap untouched, and
`setNeedsRedraw` is a no-op; neither base call throws.  (The `Layer`
subclass's `_getNeedsRedraw` override is NOT safe: it additionally iterates
`getModels()`, which throws a TypeError while `state` is null, so only the
base implementation supports querying a layer as soon as it is
constructed.) -/
theorem c10_preinit_redraw_safe_amended (c : LayerCore) (h : Heap)
    (clearRedrawFlags : Bool) (redraw : Bool)
    (hnull : c.internalState = none) :
    getNeedsRedrawBase c h clearRedrawFlags = (none, h) ∧
    setNeedsRedrawL c h redraw = h ∧
    (c.hasState = false → getNeedsRedrawSub c h clearRedrawFlags =
      Except.error "TypeError: getModels result is not iterable") := by
  refine ⟨?_, ?_, ?_⟩
  · simp [getNeedsRedrawBase, hnull]
  · simp [setNeedsRedrawL, hnull]
  · intro hst
    simp [getNeedsRedrawSub, getModelsL, hst]

/-- Witness for C10 (amended) at a concrete freshly constructed layer. -/
theorem c10_preinit_redraw_safe_amended_witness :
    getNeedsRedrawBase
        (freshLayer 0 { id := "p", data := DataVal.inline 0, payload := 0 } okHooks)
        [] true = (none, []) ∧
    setNeedsRedrawL
        (freshLayer 0 { id := "p", data := DataVal.inline 0, payload := 0 } okHooks)
        [] true = [] :=
  ⟨(c10_preinit_redraw_safe_amended _ [] true true rfl).1,
   (c10_preinit_redraw_safe_amended _ [] true true rfl).2.1⟩

/-- **C2.** Async supersession (last-request-wins): starting loads for
references `u1` then `u2` on the same property (before `u1` resolves) and
letting `u1`'s fetch complete after `u2`'s leaves the property's displayed
`value` equal to `u2`'s result.  Moreover a completion handler installs its
data and raises `dataChanged` on the owning instance exactly when its
captured count equals the property's current `loadCount`, and otherwise
changes nothing but the pending set (silent discard). -/
theorem c2_async_supersession (s : AsyncState) (u1 u2 : String) (d1 d2 : Nat)
    (h1 : s.prop.lastValue ≠ some u1) (h12 : u1 ≠ u2) :
    ((resolveLoad
        (resolveLoad (setAsyncPropStr (setAsyncPropStr s u1) u2)
          (setAsyncPropStr (setAsyncPropStr s u1) u2).prop.loadCount d2)
        (setAsyncPropStr s u1).prop.loadCount d1).prop.value = some d2) ∧
    (∀ (t : AsyncState) (c d : Nat), c ≠ t.prop.loadCount →
      (resolveLoad t c d).prop = t.prop ∧
      (resolveLoad t c d).dataChangedRaised = t.dataChangedRaised) ∧
    (∀ (t : AsyncState) (d : Nat),
      (resolveLoad t t.prop.loadCount d).prop.value = some d ∧
      (resolveLoad t t.prop.loadCount d).prop.loadValue = some d ∧
      (resolveLoad t t.prop.loadCount d).dataChangedRaised = true) := by
  refine ⟨?_, ?_, ?_⟩
  · have hne : s.prop.loadCount + 1 ≠ s.prop.loadCount + 1 + 1 := by omega
    simp [setAsyncPropStr, h1, h12, resolveLoad, hne]
  · intro t c d hc
    simp [resolveLoad, hc]
  · intro t d
    simp [resolveLoad]

/-- Witness for C2 at a concrete property state and overlapping loads. -/
theorem c2_async_supersession_witness :
    (resolveLoad
        (resolveLoad
          (setAsyncPropStr
            (setAsyncPropStr { prop := initialAsyncProp, pending := [], dataChangedRaised := false }
              "u1") "u2")
          (setAsyncPropStr
            (setAsyncPropStr { prop := initialAsyncProp, pending := [], dataChangedRaised := false }
              "u1") "u2").prop.loadCount 22)
        (setAsyncPropStr { prop := initialAsyncProp, pending := [], dataChangedRaised := false }
          "u1").prop.loadCount 11).prop.value = some 22 :=
  (c2_async_supersession
    { prop := initialAsyncProp, pending := [], dataChangedRaised := false }
    "u1" "u2" 11 22 (by decide) (by decide)).1

/-- The first-match-with-truthiness test of `getLayers` agrees with a plain
"some filter string is a prefix" test once all filter strings are
nonempty. -/
theorem find_truthy_eq_any (ids : List String) (s : String)
    (h : ∀ fid ∈ ids, fid ≠ "") :
    (match ids.find? (fun fid => indexOfZero s fid) with
     | some fid => !(fid == "")
     | none => false) = ids.any (fun fid => indexOfZero s fid) := by
  induction ids with
  | nil => rfl
  | cons a l ih =>
    cases hp : indexOfZero s a with
    | true =>
      rw [List.find?_cons_of_pos _ hp]
      have ha : a ≠ "" := h a (by simp)
      simp [List.any_cons, hp, ha]
    | false =>
      rw [List.find?_cons_of_neg _ (by simp [hp])]
      simp only [List.any_cons, hp, Bool.false_or]
      exact ih (fun f hf => h f (by simp [hf]))

/-- A manager whose live list holds one layer with id `"ab"`. -/
def c8Manager : Manager :=
  { initialManager true with
    layers := [freshLayer 1 { id := "ab", data := DataVal.inline 0, payload := 0 } okHooks] }

/-- **C8, counterexample.** The claim says the filtered result contains
exactly the layers whose id equals a filter string or begins with a filter
string followed by a separator.  The code only tests
`layer.id.indexOf(layerId) === 0` (pure prefix): filtering the live list
`["ab"]` by `["a"]` returns the `"ab"` layer even though `"ab" ≠ "a"` and
`"ab"` does not begin with `"a"` plus a separator — the code's result
differs from the spec-worded filter at this input. -/
theorem c8_prefix_filter_counterexample :
    (getLayers c8Manager (some ["a"])).map (fun l => l.props.id) = ["ab"] ∧
    (specGetLayers c8Manager (some ["a"])).map (fun l => l.props.id) = [] ∧
    getLayers c8Manager (some ["a"]) ≠ specGetLayers c8Manager (some ["a"]) := by
  refine ⟨rfl, rfl, ?_⟩
  decide

/-- **C8, amended.** `getLayers({layerIds})` on the live post-reconciliation
list returns exactly those layers whose id begins with one of the
(nonempty) filter strings — a pure prefix test with no separator
requirement, equality being the special case of an exact prefix — and with
no filter it returns the full live flat list. -/
theorem c8_prefix_filter_amended (mgr : Manager) (ids : List String)
    (h : ∀ fid ∈ ids, fid ≠ "") :
    getLayers mgr (some ids) =
      mgr.layers.filter (fun l => ids.any (fun fid => indexOfZero l.props.id fid)) ∧
    getLayers mgr none = mgr.layers := by
  constructor
  · unfold getLayers
    refine List.filter_congr ?_
    intro l _
    exact find_truthy_eq_any ids l.props.id h
  · rfl

/-- Witness for C8 (amended) at the concrete one-layer manager. -/
theorem c8_prefix_filter_amended_witness :
    getLayers c8Manager (some ["a"]) =
      c8Manager.layers.filter (fun l => ["a"].any (fun fid => indexOfZero l.props.id fid)) ∧
    getLayers c8Manager none = c8Manager.layers :=
  c8_prefix_filter_amended c8Manager ["a"] (by decide)

/-- Hooks whose `updateState` throws. -/
def c1UpdHooks : Hooks := { okHooks with updateThrows := some "update hook failure" }

/-- Hooks whose `initializeState` throws. -/
def c1InitHooks : Hooks := { okHooks with initThrows := some "init hook failure" }

/-- Hooks whose `finalizeState` throws. -/
def c1FinHooks : Hooks := { okHooks with finalizeThrows := some "finalize hook failure" }

/-- First pass: fresh layers `a` and `b` (the latter with a throwing
finalize hook, exercised in the third pass). -/
def c1Pass1 : Manager × Option Err × List Event :=
  setLayersT diffByPayload (initialManager true) 1
    [simpleLayer 10 "a" 0 okHooks, simpleLayer 11 "b" 0 c1FinHooks]

/-- Second pass: `a` rematches with a throwing update hook, `c` is fresh
with a throwing init hook, `b` rematches cleanly. -/
def c1Pass2 : Manager × Option Err × List Event :=
  setLayersT diffByPayload c1Pass1.1 2
    [simpleLayer 20 "a" 1 c1UpdHooks, simpleLayer 22 "c" 0 c1InitHooks
     , simpleLayer 21 "b" 1 c1FinHooks]

/-- Third pass: only `a` remains, so `b` and `c` are finalized and `b`'s
finalize hook throws. -/
def c1Pass3 : Manager × Option Err × List Event :=
  setLayersT diffByPayload c1Pass2.1 3 [simpleLayer 30 "a" 2 okHooks]

/-- **C1** (code bug, evaluated at the failing input).  Isolation does hold:
with `a`'s update hook and `c`'s init hook throwing, every layer is still
given its chance (`b` still reaches `MATCHED` and is updated, and all three
are appended to the live list, `c` left in `NO_STATE`), and the two hook
errors are logged (`updateError`/`initError` events).  But `setLayers`
returns NO error for this pass: `_initializeLayer` and `_updateLayer` catch
the hook error internally and return it, and `_updateSublayersRecursively`
ignores their return values, so — contrary to the claim and to the intent
documented by the source comments ("Throw first error found, if any";
"checking for caught errors") — the first initialize/update error is never
re-raised to the caller.  Only a finalization error reaches the caller, as
the third pass shows. -/
theorem c1_update_error_swallowed_at_failing_input :
    (c1Pass2.2.1 = none) ∧
    (c1Pass2.1.layers.map (fun c => (c.oid, c.lifecycle)) =
      [(20, Lifecycle.matched), (22, Lifecycle.noState), (21, Lifecycle.matched)]) ∧
    (Event.updateError 20 "update hook failure" ∈ c1Pass2.2.2) ∧
    (Event.initError 22 "init hook failure" ∈ c1Pass2.2.2) ∧
    (Event.updateLayer 21 ∈ c1Pass2.2.2) ∧
    (c1Pass3.2.1 = some "finalize hook failure") ∧
    (Event.finalizeLayer 22 ∈ c1Pass3.2.2) ∧
    (Event.finalizeLayer 21 ∈ c1Pass3.2.2) := by
  decide

/-- First pass for the duplicate-id scenario: one live layer with id `x`. -/
def c3Pass1 : Manager × Option Err × List Event :=
  setLayersT diffByPayload (initialManager true) 1 [simpleLayer 30 "x" 0 okHooks]

/-- Second pass: two new descriptors with the same id `x`. -/
def c3Pass2 : Manager × Option Err × List Event :=
  setLayersT diffByPayload c3Pass1.1 2
    [simpleLayer 40 "x" 1 okHooks, simpleLayer 41 "x" 2 okHooks]

/-- **C3, counterexample.** Submitting two descriptors with the same id
`"x"` produces TWO live instances with that id after the pass (the first
matched against the predecessor, the second freshly initialized), not
"exactly one live instance" as the claim states. -/
theorem c3_duplicate_id_counterexample :
    ((c3Pass2.1.layers.filter (fun c => c.props.id == "x")).length = 2) ∧
    ¬((c3Pass2.1.layers.filter (fun c => c.props.id == "x")).length = 1) ∧
    (Event.warnDupNew "x" ∈ c3Pass2.2.2) := by
  decide

/-! #### Arithmetic facts about the JS int32 helpers -/

theorem nat_and_255 (n : Nat) : n &&& 255 = n % 256 := by
  have h := Nat.and_pow_two_sub_one_eq_mod n 8
  norm_num at h
  exact h

theorem toInt32_of_lt (n : Nat) (h : n < 2147483648) : toInt32 n = (n : Int) := by
  unfold toInt32
  rw [Nat.mod_eq_of_lt (by omega)]
  simp [h]

theorem int32ToUint32_natCast (n : Nat) (h : n < 4294967296) :
    int32ToUint32 (n : Int) = n := by
  unfold int32ToUint32
  rw [show ((n : Int) % 4294967296) = (n : Int) by omega]
  exact Int.toNat_natCast n

/-- `x & 255` on an int32 value is the low byte of its unsigned
representation. -/
theorem jsAnd_255_eq (x : Int) :
    jsAnd x 255 = ((int32ToUint32 x % 256 : Nat) : Int) := by
  unfold jsAnd
  rw [show int32ToUint32 (255 : Int) = 255 from rfl, nat_and_255]
  exact toInt32_of_lt _ (by omega)

theorem jsShr_natCast (n k : Nat) : jsShr (n : Int) k = ((n / 2 ^ k : Nat) : Int) := by
  unfold jsShr
  rw [Int.fdiv_eq_ediv _ (by positivity)]
  push_cast
  rfl

theorem jsShr_natCast8 (n : Nat) : jsShr (n : Int) 8 = ((n / 256 : Nat) : Int) := by
  have h := jsShr_natCast n 8
  norm_num at h
  exact h

theorem jsShr_natCast24 (n : Nat) : jsShr (n : Int) 24 = ((n / 16777216 : Nat) : Int) := by
  have h := jsShr_natCast n 24
  norm_num at h
  exact h

theorem int32ToUint32_toInt32 (n : Nat) (h : n < 4294967296) :
    int32ToUint32 (toInt32 n) = n := by
  unfold toInt32 int32ToUint32
  split <;> omega

/-- The value tested by `encodePickingColor`'s assertion,
`((i + 1) >> 24) & 255`, equals bits 24–31 of the unsigned 32-bit
representation of `i + 1`. -/
theorem guard_value (n : Nat) (h : n < 4294967296) :
    jsAnd (jsShr (toInt32 n) 24) 255 = ((n / 16777216 % 256 : Nat) : Int) := by
  rw [jsAnd_255_eq]
  unfold toInt32 jsShr int32ToUint32
  rw [Int.fdiv_eq_ediv _ (by norm_num)]
  norm_num
  split <;> omega

/-- **C9, counterexample.** The claim says every `i` outside the round-trip
range fails `encodePickingColor`'s assertion, equating the JS guard
`((i + 1) >> 24) & 255 === 0` with `i + 1 < 2^24`.  At `i = 2^32 - 1`
(`i + 1 = 2^32`) the JS int32 coercion wraps the guard operand to 0, so the
assertion PASSES and the function returns the color `[0, 0, 0]` — whose
decoding is `-1`, not `i`.  Both readings of the claim fail here: the guard
holds but the round trip returns `-1 ≠ i`, and `i + 1 ≥ 2^24` yet no
assertion failure occurs. -/
theorem c9_picking_guard_counterexample :
    encodePickingColor 4294967295 = some (0, 0, 0) ∧
    decodePickingColor 0 0 0 = -1 ∧
    decodePickingColor 0 0 0 ≠ (4294967295 : Int) := by
  refine ⟨by decide, by decide, by decide⟩

/-- **C9, amended.** For every index `i` with `i + 1 < 2^24` the assertion
passes, `encodePickingColor i` returns the three little-endian bytes of
`i + 1`, and `decodePickingColor` applied to those bytes returns `i`; for
every `i` with `2^24 ≤ i + 1 < 2^32` the assertion fails (`none`).  The JS
guard only inspects the low 32 bits of `i + 1`, so indices with
`i + 1 ≥ 2^32` (representable since JS numbers are doubles) can wrap past
the guard, as the counterexample shows. -/
theorem c9_picking_roundtrip_amended (i : Nat) (h32 : i + 1 < 4294967296) :
    (i + 1 < 16777216 →
      encodePickingColor i =
        some ((i + 1) % 256, (i + 1) / 256 % 256, (i + 1) / 65536 % 256) ∧
      decodePickingColor ((i + 1) % 256) ((i + 1) / 256 % 256) ((i + 1) / 65536 % 256) =
        (i : Int)) ∧
    (16777216 ≤ i + 1 → encodePickingColor i = none) := by
  constructor
  · intro h24
    have hg := guard_value (i + 1) h32
    have hg0 : (i + 1) / 16777216 % 256 = 0 := by omega
    rw [hg0, Nat.cast_zero] at hg
    have hv : toInt32 (i + 1) = ((i + 1 : Nat) : Int) := toInt32_of_lt _ (by omega)
    have b0 : (jsAnd (toInt32 (i + 1)) 255).toNat = (i + 1) % 256 := by
      rw [hv, jsAnd_255_eq, int32ToUint32_natCast _ (by omega)]
      exact Int.toNat_natCast _
    have b1 : (jsAnd (jsShr (toInt32 (i + 1)) 8) 255).toNat = (i + 1) / 256 % 256 := by
      rw [hv, jsShr_natCast8, jsAnd_255_eq, int32ToUint32_natCast _ (by omega)]
      exact Int.toNat_natCast _
    have b2 : (jsAnd (jsShr (jsShr (toInt32 (i + 1)) 8) 8) 255).toNat =
        (i + 1) / 65536 % 256 := by
      rw [hv, jsShr_natCast8, jsShr_natCast8, jsAnd_255_eq,
        int32ToUint32_natCast _ (by omega)]
      rw [Int.toNat_natCast]
      omega
    constructor
    · unfold encodePickingColor
      rw [hg, if_pos rfl, b0, b1, b2]
    · unfold decodePickingColor
      push_cast
      omega
  · intro h24
    have hg := guard_value (i + 1) h32
    unfold encodePickingColor
    rw [hg]
    have hne : (i + 1) / 16777216 % 256 ≠ 0 := by omega
    rw [if_neg (by exact_mod_cast hne)]

/-- Witness for C9 (amended) at `i = 300` (round trip) — the second
conjunct is exercised at `i = 16777215`. -/
theorem c9_picking_roundtrip_amended_witness :
    (encodePickingColor 300 = some (45, 1, 0) ∧
      decodePickingColor 45 1 0 = (300 : Int)) ∧
    encodePickingColor 16777215 = none :=
  ⟨(c9_picking_roundtrip_amended 300 (by omega)).1 (by omega),
   (c9_picking_roundtrip_amended 16777215 (by omega)).2 (by omega)⟩

/-- `setChangeFlags` applied to freshly cleared flags raises exactly the
given primary flags plus the two derived composites. -/
theorem setChangeFlags_cleared (f : PrimFlags) :
    setChangeFlags clearedChangeFlags f =
      { dataChanged := f.dataChanged, propsChanged := f.propsChanged
        updateTriggersChanged := f.updateTriggersChanged, viewportChanged := f.viewportChanged
        propsOrDataChanged := f.dataChanged || f.updateTriggersChanged || f.propsChanged
        somethingChanged :=
          (f.dataChanged || f.updateTriggersChanged || f.propsChanged) || f.viewportChanged } := by
  obtain ⟨a, b, c, d⟩ := f
  cases a <;> cases b <;> cases c <;> cases d <;> rfl

/-- The change flags a fresh layer's first update pass observes: data,
props and viewport all raised (with the derived composites). -/
def initFlagsAll : ChangeFlags :=
  { dataChanged := true, propsChanged := true, updateTriggersChanged := false
    viewportChanged := true, propsOrDataChanged := true, somethingChanged := true }

/-- A reconciliation pass whose old list is empty and whose new list is one
fresh simple layer with inline data; the external differ (a collaborator
outside this repository) is abstracted by its outcome `d`. -/
def c7FreshPass (d : PrimFlags) (oid ns : Nat) (pid : String) (dv pv : Nat)
    (mr : Option String) : UpdateLayersResult :=
  updateLayersM (fun _ _ => d) [] ns mr []
    [Layer.mk (freshLayer oid { id := pid, data := DataVal.inline dv, payload := pv } okHooks) []]

/-- A reconciliation pass matching one fresh simple descriptor (inline
data) against a same-id predecessor `oc` whose `InternalState` record is
`is` at heap key `sid`; the external differ is abstracted by its outcome
`d`. -/
def c7MatchPass (d : PrimFlags) (oc : LayerCore) (noid dv pv sid ns : Nat)
    (is : InternalState) (mr : Option String) : UpdateLayersResult :=
  updateLayersM (fun _ _ => d) [(sid, is)] ns mr [oc]
    [Layer.mk
      (freshLayer noid { id := oc.props.id, data := DataVal.inline dv, payload := pv } okHooks)
      []]

/-- **C7.** Fresh versus matched transitions.  (1) An id present only in the
new list is constructed (`NO_STATE`) and comes out of the pass
`INITIALIZED`, with `dataChanged`, `propsChanged` and `viewportChanged` all
raised in the flags observed by its first update pass, and no error.  (2) An
id present in both lists comes out `MATCHED` while its predecessor
transitions to `AWAITING_GC` (and is not finalized); the flags observed by
its update pass are exactly those produced by the actual prop diff `d`
(fed through `setChangeFlags` on the predecessor's cleared flags — see
`setChangeFlags_cleared`), assuming the new data prop is inline (string
data would additionally postpone `dataChanged` behind the async load). -/
theorem c7_fresh_vs_matched (d : PrimFlags) (oid ns : Nat) (pid : String)
    (dv pv : Nat) (mr : Option String) (oc : LayerCore) (noid dv2 pv2 sid : Nat)
    (is : InternalState)
    (hint : oc.internalState = some sid) (hst : oc.hasState = true)
    (hne : noid ≠ oc.oid) (his : is.changeFlags = clearedChangeFlags) :
    ((c7FreshPass d oid ns pid dv pv mr).generated =
      [{ oid := oid, props := { id := pid, data := DataVal.inline dv, payload := pv }
         oldProps := emptyProps, lifecycle := Lifecycle.initialized
         internalState := some ns, hasState := true, hooks := okHooks
         flagsAtUpdate := some initFlagsAll }] ∧
     (c7FreshPass d oid ns pid dv pv mr).firstError = none) ∧
    ((c7MatchPass d oc noid dv2 pv2 sid ns is mr).generated =
      [{ oid := noid, props := { id := oc.props.id, data := DataVal.inline dv2, payload := pv2 }
         oldProps := oc.props, lifecycle := Lifecycle.matched
         internalState := some sid, hasState := true, hooks := okHooks
         flagsAtUpdate := some (setChangeFlags clearedChangeFlags d) }] ∧
     (c7MatchPass d oc noid dv2 pv2 sid ns is mr).oldOut =
       [{ oc with lifecycle := Lifecycle.awaitingGC }] ∧
     (c7MatchPass d oc noid dv2 pv2 sid ns is mr).finalized = [] ∧
     (c7MatchPass d oc noid dv2 pv2 sid ns is mr).firstError = none) := by
  constructor
  · constructor <;>
      simp [c7FreshPass, updateLayersM, buildOldLayerMap, walkLayers, walkLayer,
        initializeLayerM, layerInitialize, setFlagsH, clearFlagsH, heapGet, heapSet,
        loadData, mapLookup, mapSetNull, finalizeOldLayers, finalizeOldLoop, firstErr, freshLayer, okHooks,
        initialInternalState, updateLayerM, layerUpdate, clearedChangeFlags, setChangeFlags,
        initFlagsAll]
  · rw [show setChangeFlags clearedChangeFlags d = setChangeFlags is.changeFlags d by
      rw [his]]
    obtain ⟨da, pb, tc, vc⟩ := d
    cases da <;>
      simp [c7MatchPass, updateLayersM, buildOldLayerMap, walkLayers, walkLayer,
        initializeLayerM, layerInitialize, setFlagsH, clearFlagsH, heapGet, heapSet,
        loadData, mapLookup, mapSetNull, finalizeOldLayers, finalizeOldLoop, firstErr, freshLayer, okHooks,
        initialInternalState, updateLayerM, layerUpdate, transferLayerStateM,
        layerTransferState, layerDiffProps, hint, hst, hne, his]

/-- A concrete predecessor for the C7 witness. -/
def c7OldLayer : LayerCore :=
  { oid := 1, props := { id := "m", data := DataVal.inline 3, payload := 0 }
    oldProps := emptyProps, lifecycle := Lifecycle.initialized
    internalState := some 0, hasState := true, hooks := okHooks, flagsAtUpdate := none }

/-- A concrete diff outcome for the C7 witness. -/
def c7Diff : PrimFlags :=
  { dataChanged := false, propsChanged := true
    updateTriggersChanged := false, viewportChanged := false }

/-- Witness for C7 at concrete inputs (fresh pass and matched pass). -/
theorem c7_fresh_vs_matched_witness :
    ((c7FreshPass c7Diff 9 5 "f" 0 0 none).generated =
      [{ oid := 9, props := { id := "f", data := DataVal.inline 0, payload := 0 }
         oldProps := emptyProps, lifecycle := Lifecycle.initialized
         internalState := some 5, hasState := true, hooks := okHooks
         flagsAtUpdate := some initFlagsAll }]) ∧
    ((c7MatchPass c7Diff c7OldLayer 2 4 7 0 5 initialInternalState none).oldOut =
      [{ c7OldLayer with lifecycle := Lifecycle.awaitingGC }]) :=
  ⟨(c7_fresh_vs_matched c7Diff 9 5 "f" 0 0 none c7OldLayer 2 4 7 0 initialInternalState
      rfl rfl (by decide) rfl).1.1,
   (c7_fresh_vs_matched c7Diff 9 5 "f" 0 0 none c7OldLayer 2 4 7 0 initialInternalState
      rfl rfl (by decide) rfl).2.2.1⟩

/-- A reconciliation pass whose new list holds two fresh simple descriptors
with the SAME id as the predecessor `oc` (duplicate-id scenario); the
external differ is abstracted by its outcome `d`. -/
def c3DupPass (d : PrimFlags) (oc : LayerCore) (noid1 noid2 dv1 pv1 dv2 pv2 sid ns : Nat)
    (is : InternalState) (mr : Option String) : UpdateLayersResult :=
  updateLayersM (fun _ _ => d) [(sid, is)] ns mr [oc]
    [Layer.mk
      (freshLayer noid1 { id := oc.props.id, data := DataVal.inline dv1, payload := pv1 } okHooks)
      []
     , Layer.mk
      (freshLayer noid2 { id := oc.props.id, data := DataVal.inline dv2, payload := pv2 } okHooks)
      []]

/-- **C3, amended.** For a new descriptor list containing two descriptors
with the same id: reconciliation logs the "multiple new layers" warning
when it reaches the second; the first descriptor in traversal order is the
one matched against the same-id predecessor (whose candidate-map entry is
nulled, so it cannot match twice — the predecessor goes to `AWAITING_GC`
and is NOT finalized a second time); the second descriptor is treated as a
fresh instance and initialized; and BOTH are appended, so after the pass
two live instances with that id exist (not one). -/
theorem c3_duplicate_id_amended (d : PrimFlags) (oc : LayerCore)
    (noid1 noid2 dv1 pv1 dv2 pv2 sid ns : Nat) (is : InternalState) (mr : Option String)
    (hint : oc.internalState = some sid) (hst : oc.hasState = true)
    (hne1 : noid1 ≠ oc.oid) (his : is.changeFlags = clearedChangeFlags)
    (hsn : sid ≠ ns) :
    ((c3DupPass d oc noid1 noid2 dv1 pv1 dv2 pv2 sid ns is mr).generated =
      [{ oid := noid1, props := { id := oc.props.id, data := DataVal.inline dv1, payload := pv1 }
         oldProps := oc.props, lifecycle := Lifecycle.matched
         internalState := some sid, hasState := true, hooks := okHooks
         flagsAtUpdate := some (setChangeFlags clearedChangeFlags d) }
       , { oid := noid2
           props := { id := oc.props.id, data := DataVal.inline dv2, payload := pv2 }
           oldProps := emptyProps, lifecycle := Lifecycle.initialized
           internalState := some ns, hasState := true, hooks := okHooks
           flagsAtUpdate := some initFlagsAll }]) ∧
    (((c3DupPass d oc noid1 noid2 dv1 pv1 dv2 pv2 sid ns is mr).generated.filter
        (fun c => c.props.id == oc.props.id)).length = 2) ∧
    ((c3DupPass d oc noid1 noid2 dv1 pv1 dv2 pv2 sid ns is mr).trace =
      [Event.matchedLayer oc.oid noid1, Event.updateLayer noid1
       , Event.warnDupNew oc.props.id, Event.initLayer noid2]) ∧
    ((c3DupPass d oc noid1 noid2 dv1 pv1 dv2 pv2 sid ns is mr).oldOut =
      [{ oc with lifecycle := Lifecycle.awaitingGC }]) ∧
    ((c3DupPass d oc noid1 noid2 dv1 pv1 dv2 pv2 sid ns is mr).finalized = []) ∧
    ((c3DupPass d oc noid1 noid2 dv1 pv1 dv2 pv2 sid ns is mr).firstError = none) := by
  rw [show setChangeFlags clearedChangeFlags d = setChangeFlags is.changeFlags d by
    rw [his]]
  obtain ⟨da, pb, tc, vc⟩ := d
  cases da <;>
    simp [c3DupPass, updateLayersM, buildOldLayerMap, walkLayers, walkLayer,
      initializeLayerM, layerInitialize, setFlagsH, clearFlagsH, heapGet, heapSet,
      loadData, mapLookup, mapSetNull, finalizeOldLayers, finalizeOldLoop, firstErr, freshLayer, okHooks,
      initialInternalState, updateLayerM, layerUpdate, transferLayerStateM,
      layerTransferState, layerDiffProps, clearedChangeFlags, setChangeFlags, initFlagsAll,
      hint, hst, hne1, his, hsn]

/-- Witness for C3 (amended) at concrete inputs. -/
theorem c3_duplicate_id_amended_witness :
    (((c3DupPass c7Diff c7OldLayer 40 41 0 1 0 2 0 5 initialInternalState none).generated.filter
        (fun c => c.props.id == c7OldLayer.props.id)).length = 2) ∧
    ((c3DupPass c7Diff c7OldLayer 40 41 0 1 0 2 0 5 initialInternalState none).trace =
      [Event.matchedLayer 1 40, Event.updateLayer 40
       , Event.warnDupNew "m", Event.initLayer 41]) :=
  ⟨(c3_duplicate_id_amended c7Diff c7OldLayer 40 41 0 1 0 2 0 5 initialInternalState none
      rfl rfl (by decide) rfl (by decide)).2.1,
   (c3_duplicate_id_amended c7Diff c7OldLayer 40 41 0 1 0 2 0 5 initialInternalState none
      rfl rfl (by decide) rfl (by decide)).2.2.1⟩

end DeckVerify
